import Mathlib

/-
Verification of the Prometeo gas-exposure analytics core
(`src/GasExposureAnalytics.py`) against its design specification.

The model works at minute granularity: all timestamps are integers counting
minutes (the source floors every timestamp to a minute boundary, lines
164-170 and records are "quantized to floor(minute)", line 232).  Sensor
values are rationals (idealizing IEEE floats, whose rounding the claims do
not depend on).  The sensor log is modelled as at most one reading per
(firefighter, minute), mirroring the source's documented storage assumption
(lines 163-165: "sensor data is stored against a minute-floor timestamp
key").
-/

namespace Prometeo

/-- Source lines 21-23: status LED encodings. -/
def GREEN : Nat := 1

/-- Source lines 21-23: status LED encodings. -/
def YELLOW : Nat := 2

/-- Source lines 21-23: status LED encodings. -/
def RED : Nat := 3

/-- Source line 26: inclusive lower bound of the green bin. -/
def GREEN_RANGE_START : Int := 0

/-- Source line 27: boundary constant between yellow and red used in the
`pd.cut` bins at line 322. -/
def RED_RANGE_START : Int := 99

/-- Round half to even, the default of `numpy.round` and of pandas
`DataFrame.round` used at source lines 289 and 299. -/
def roundHalfEven (q : ℚ) : ℤ :=
  if q - ⌊q⌋ < 1/2 then ⌊q⌋
  else if (1 : ℚ)/2 < q - ⌊q⌋ then ⌊q⌋ + 1
  else if ⌊q⌋ % 2 = 0 then ⌊q⌋ else ⌊q⌋ + 1

/-- `np.round(q, d)` for a non-negative decimal count `d`
(source line 289). -/
def npRound (d : Nat) (q : ℚ) : ℚ :=
  (roundHalfEven (q * (10 : ℚ) ^ d) : ℚ) / (10 : ℚ) ^ d

/-- One entry of `windows_and_limits` in `prometeo_config.json`
(source lines 116-118): a label, a length in minutes, and a ppm limit per
gas (an association list mirroring the JSON object). -/
structure Window where
  label : String
  mins : Nat
  gas_limits : List (String × ℚ)
deriving DecidableEq

/-- The configuration loaded in `__init__` (source lines 116-130).
`safe_rounding_factor` is an `Int` so that the validator's sign check
(source line 95) is meaningful; `isinstance(..., int)` is enforced by the
type. -/
structure Config where
  windows_and_limits : List Window
  supported_gases : List String
  yellow_warning_percent : Int
  safe_rounding_factor : Int

/-- Source lines 40-43: hard-coded sensor sensitivity ranges (min, max),
`none` for a gas with no row in the dictionary (a lookup of such a gas in
Python raises `KeyError`). -/
def SENSOR_RANGE_PPM : String → Option (ℚ × ℚ) :=
  fun g =>
    if g = "carbon_monoxide" then some (1, 1000)
    else if g = "nitrogen_dioxide" then some (1/20, 10)
    else none

/-- Tags for the critical configuration issues accumulated by
`_validate_config` (source lines 50-102); each constructor stands for one
of the five messages appended to `critical_config_issues`. -/
inductive Violation where
  | gasKeyMismatch : Violation
  | unsupportedGas : Violation
  | limitOutOfRange : String → Violation
  | badYellowPercent : Violation
  | badRoundingFactor : Violation
deriving DecidableEq

/-- Python `dict.keys() == dict.keys()` is set equality of the key views
(source line 57). -/
def keySetEqB (a b : List String) : Bool :=
  a.all (fun k => b.contains k) && b.all (fun k => a.contains k)

/-- One iteration of the loop at source lines 77-84: collect a supported
gas's limits across all windows (`window[GAS_LIMITS_PROPERTY][gas]`, which
raises `KeyError` when the gas is absent from a window), look up its sensor
range (`SENSOR_RANGE_PPM[gas]`, again a possible `KeyError`), and flag a
violation when `min(limits)` or `max(limits)` leaves the range. -/
def check3ForGas (windows : List Window) (g : String) :
    Except String (List Violation) := do
  let limits ← windows.mapM (fun w =>
    match w.gas_limits.lookup g with
    | some l => Except.ok l
    | none => Except.error "KeyError")
  match SENSOR_RANGE_PPM g with
  | none => Except.error "KeyError"
  | some (lo, hi) =>
    match limits with
    | [] => Except.error "ValueError"
    | l :: ls =>
      if (l :: ls).foldl min l < lo || hi < (l :: ls).foldl max l then
        Except.ok [Violation.limitOutOfRange g]
      else
        Except.ok []

/-- `_validate_config` (source lines 50-104).  The five checks run in
source order and append to `critical_config_issues`; `.error` models a
Python exception escaping the method before the final aggregated `assert`
(line 102), `.ok issues` models reaching that assert with the accumulated
issue list (the process refuses to start unless the list is empty). -/
def validateConfig (c : Config) : Except String (List Violation) := do
  match c.windows_and_limits with
  | [] =>
    -- check 1 finds no mismatch over an empty list, then check 2 indexes
    -- `self.WINDOWS_AND_LIMITS[0]` (source line 69) and raises IndexError.
    Except.error "IndexError"
  | w0 :: rest =>
    let issues1 :=
      if (w0 :: rest).any (fun w =>
          !keySetEqB (w.gas_limits.map Prod.fst) (w0.gas_limits.map Prod.fst))
      then [Violation.gasKeyMismatch] else []
    let issues2 :=
      if !(c.supported_gases.all (fun g => (w0.gas_limits.map Prod.fst).contains g))
      then [Violation.unsupportedGas] else []
    let issues3 ← c.supported_gases.mapM (check3ForGas (w0 :: rest))
    let issues4 :=
      if !(0 < c.yellow_warning_percent && c.yellow_warning_percent < 100)
      then [Violation.badYellowPercent] else []
    let issues5 :=
      if !(0 ≤ c.safe_rounding_factor)
      then [Violation.badRoundingFactor] else []
    Except.ok (issues1 ++ issues2 ++ issues3.flatten ++ issues4 ++ issues5)

/-- One sensor-log row: ppm value per supported-gas column plus the
non-analytic telemetry columns that are carried through to the output
(source lines 241-249 describe both kinds of column). -/
structure Row where
  gasVal : String → ℚ
  aux : String → ℚ

/-- The sensor log (the external store read at source lines 167-193):
`readings e m` is the row stored for firefighter `e` against minute-floored
timestamp `m`, at most one per (firefighter, minute) as the source assumes
(lines 163-165). -/
structure SensorLog where
  entities : List String
  readings : String → Int → Option Row

/-- Search `r (m+1), ..., r (m+limit)` for the first present value; this is
the bounded backward fill of `.resample(1min).backfill(limit=3)` at source
line 227: a missing minute takes the value of the NEXT stored row when that
row is at most `limit` minutes ahead. -/
def findNextWithin {α : Type} (r : Int → Option α) : Int → Nat → Option α
  | _, 0 => none
  | m, Nat.succ d =>
    match r (m + 1) with
    | some row => some row
    | none => findNextWithin r (m + 1) d

/-- The value of the resampled one-minute grid at minute `m` (source lines
222-228): the stored reading when present, otherwise the next reading at
distance at most `limit` (pandas `backfill`, i.e. backward fill). -/
def resampleAt {α : Type} (r : Int → Option α) (limit : Nat) (m : Int) :
    Option α :=
  match r m with
  | some row => some row
  | none => findNextWithin r m limit

/-- The minutes of a trailing window of length `k` ending at tick `t`:
`[t - k + 1, t]`, the inclusive pandas slice at source lines 205-208 and
264-265 (`slice_correction` subtracts one minute so a `k`-minute window
holds `k` samples, not `k + 1`). -/
def windowMinutes (t : Int) (k : Nat) : List Int :=
  (List.range k).map (fun (i : Nat) => t - (i : Int))

/-- `max([window['mins'] for window in self.WINDOWS_AND_LIMITS])`
(source line 171 and line 203). -/
def longestWindowMins (cfg : Config) : Nat :=
  cfg.windows_and_limits.foldl (fun acc w => max acc w.mins) 0

/-- Restriction of firefighter `e`'s readings to `[lo, hi]`: the block
`longest_window_df` sliced at source line 208 only contains rows in the
longest window's range, so resampling never sees anything outside it. -/
def readingsIn (log : SensorLog) (e : String) (lo hi : Int) :
    Int → Option Row :=
  fun m => if lo ≤ m ∧ m ≤ hi then log.readings e m else none

/-- Firefighter `e`'s readings as seen by the resampler: the raw log cut to
the longest window's slice `[t - longest + 1, t]` (source line 208). -/
def cleanedReadings (cfg : Config) (log : SensorLog) (t : Int) (e : String) :
    Int → Option Row :=
  readingsIn log e (t - (longestWindowMins cfg : Int) + 1) t

/-- The minutes inside the longest window's slice at which firefighter `e`
actually has a stored reading. -/
def readingMinutes (cfg : Config) (log : SensorLog) (t : Int) (e : String) :
    List Int :=
  (windowMinutes t (longestWindowMins cfg)).filter
    (fun m => (cleanedReadings cfg log t e m).isSome)

/-- Whether minute `m` has a row in firefighter `e`'s resampled grid:
pandas `groupby(...).resample(...)` only creates rows between the group's
first and last stored timestamp, so the grid spans exactly
`[first reading, last reading]`. -/
def inGrid (cfg : Config) (log : SensorLog) (t : Int) (e : String)
    (m : Int) : Bool :=
  (readingMinutes cfg log t e).any (fun m2 => decide (m2 ≤ m)) &&
  (readingMinutes cfg log t e).any (fun m2 => decide (m ≤ m2))

/-- The row of `longest_window_cleaned_df` (source lines 224-228) for
firefighter `e` at minute `m`: `none` when the grid has no row there or the
row is all-NaN (a gap more than 3 minutes before the next reading; such a
row also has NaN in its `firefighter_id` column, because `backfill` fills
every column, so every later `groupby(FIREFIGHTER_ID_COL)` drops it). -/
def cleanedSlot (cfg : Config) (log : SensorLog) (t : Int) (e : String)
    (m : Int) : Option Row :=
  if inGrid cfg log t e m then
    resampleAt (cleanedReadings cfg log t e) 3 m
  else none

/-- The non-NaN rows firefighter `e` contributes to `window_df` (source
lines 262-265): the resampled grid cut to the window's trailing slice.
These are exactly the rows `window_df.groupby(FIREFIGHTER_ID_COL)` sees,
since all-NaN rows carry a NaN group key. -/
def presentSlots (cfg : Config) (log : SensorLog) (t : Int) (w : Window)
    (e : String) : List Row :=
  (windowMinutes t w.mins).filterMap (cleanedSlot cfg log t e)

/-- `float(window[GAS_LIMITS_PROPERTY][gas])` (source line 298).  On a
validated configuration every supported gas has a limit in every window, so
the association-list lookup never misses; `getD 0` is never exercised
there. -/
def gasLimit (w : Window) (g : String) : ℚ :=
  (w.gas_limits.lookup g).getD 0

/-- `window_df.groupby(FIREFIGHTER_ID_COL).sum()` for one gas column
(source line 289): the sum of firefighter `e`'s per-minute values in the
window's slice (missing minutes contribute nothing to the sum). -/
def windowSum (cfg : Config) (log : SensorLog) (t : Int) (w : Window)
    (e : String) (g : String) : ℚ :=
  ((presentSlots cfg log t w e).map (fun row => row.gasVal g)).sum

/-- Source lines 286-289: the time-weighted average
`np.round(sum / float(window_sample_count), SAFE_ROUNDING_FACTOR)` where
`window_sample_count = window_timedelta / resample_timedelta = w.mins` is
the fixed denominator.  (`toNat` is harmless: the validator rejects a
negative rounding factor before any tick runs.) -/
def windowTWA (cfg : Config) (log : SensorLog) (t : Int) (w : Window)
    (e : String) (g : String) : ℚ :=
  npRound cfg.safe_rounding_factor.toNat
    (windowSum cfg log t w e g / (w.mins : ℚ))

/-- Source line 299: `(window_twa_df * 100 / limits).round(0).astype(int)`,
the whole-percent limit gauge. -/
def windowGauge (cfg : Config) (log : SensorLog) (t : Int) (w : Window)
    (e : String) (g : String) : ℤ :=
  roundHalfEven (windowTWA cfg log t w e g * 100 / gasLimit w g)

/-- Firefighter `e`'s columns contributed by one window to the merged
output frame: a rounded TWA and an integer gauge per gas column. -/
structure WindowResult where
  twa : String → ℚ
  gauge : String → ℤ

/-- The contribution of window `w` for firefighter `e` (source lines
264-306): `none` when `e` has no row in the window's slice — such a
firefighter is absent from `window_df.groupby(FIREFIGHTER_ID_COL)` and so
from `window_twa_df` and `window_gauge_df`; no zero-filled row is
produced. -/
def windowResultFor (cfg : Config) (log : SensorLog) (t : Int) (w : Window)
    (e : String) : Option WindowResult :=
  if (presentSlots cfg log t w e).isEmpty then none
  else some ⟨windowTWA cfg log t w e, windowGauge cfg log t w e⟩

/-- `.max(axis='columns')` over the gauge columns (source line 321):
`none` models an all-NaN row (no gauge values at all). -/
def maxGauge : List Int → Option Int
  | [] => none
  | g :: gs => some (gs.foldl max g)

/-- `pd.cut(maxg, bins=[GREEN_RANGE_START, yellow - 1, RED_RANGE_START,
np.Inf], include_lowest=True, labels=[GREEN, YELLOW, RED])` (source lines
318-323).  `pd.cut` bins are right-closed, `include_lowest` closes the
first bin's left end, and a value outside every bin — or NaN input — maps
to NaN (`none`). -/
def statusOf (yellow : Int) (gauges : List Int) : Option Nat :=
  match maxGauge gauges with
  | none => none
  | some m =>
    if GREEN_RANGE_START ≤ m ∧ m ≤ yellow - 1 then some GREEN
    else if yellow - 1 < m ∧ m ≤ RED_RANGE_START then some YELLOW
    else if RED_RANGE_START < m then some RED
    else none

/-- All gauge values appearing in firefighter `e`'s merged output row: one
per supported gas per window in which `e` has data (windows without data
for `e` leave NaN cells, which `.max` skips). -/
def entityGauges (cfg : Config) (log : SensorLog) (t : Int) (e : String) :
    List Int :=
  cfg.windows_and_limits.flatMap (fun w =>
    match windowResultFor cfg log t w e with
    | none => []
    | some res => cfg.supported_gases.map res.gauge)

/-- One row of `everything_for_1_min_df` (source lines 308-326): keyed by
`(firefighter_id, common_key)` where `common_key = current - 1 minute`
(source line 233), carrying the `latest` sensor row from the grid slot at
`common_key` (lines 238-253, `None`-filled when absent, lines 311-315),
one optional `WindowResult` per configured window, and the derived status
LED. -/
structure AnalyticsRecord where
  firefighter : String
  timestamp_mins : Int
  latest : Option Row
  results : List (String × Option WindowResult)
  status : Option Nat

/-- Assemble firefighter `e`'s output record for tick `t` (source lines
230-326). -/
def mkRecord (cfg : Config) (log : SensorLog) (t : Int) (e : String) :
    AnalyticsRecord :=
  { firefighter := e
  , timestamp_mins := t - 1
  , latest := cleanedSlot cfg log t e (t - 1)
  , results := cfg.windows_and_limits.map
      (fun w => (w.label, windowResultFor cfg log t w e))
  , status := statusOf cfg.yellow_warning_percent (entityGauges cfg log t e) }

/-- Whether firefighter `e` gets a row in the merged frame: a `latest`
sensor row at `common_key` or data in at least one window (the outer join
of `pd.concat(latest_sensor_readings + calculations_for_all_windows)` at
source line 309). -/
def hasRecord (cfg : Config) (log : SensorLog) (t : Int) (e : String) :
    Bool :=
  (cleanedSlot cfg log t e (t - 1)).isSome ||
  cfg.windows_and_limits.any (fun w =>
    !(presentSlots cfg log t w e).isEmpty)

/-- The sanity check at source line 278:
`assert(window_df.groupby(FIREFIGHTER_ID_COL).size().max() <= window_mins)`
fails when some firefighter has more rows in some window than the window
has minutes. -/
def assertFails (cfg : Config) (log : SensorLog) (t : Int) : Bool :=
  cfg.windows_and_limits.any (fun w =>
    log.entities.any (fun e =>
      decide (w.mins < (presentSlots cfg log t w e).length)))

/-- `_calculate_TWA_and_gauge_for_all_firefighters` (source lines 199-328):
an `AssertionError` aborts the tick when the per-window sanity check fails;
a `ValueError` models `pd.concat` of an empty list (line 309, reachable
when the block has data but no firefighter contributes a latest row or any
window data); otherwise one record per firefighter with data. -/
def calculateAll (cfg : Config) (log : SensorLog) (t : Int) :
    Except String (List AnalyticsRecord) :=
  if assertFails cfg log t then Except.error "AssertionError"
  else if log.entities.any (fun e => hasRecord cfg log t e) then
    Except.ok ((log.entities.filter (fun e => hasRecord cfg log t e)).map
      (fun e => mkRecord cfg log t e))
  else Except.error "ValueError"

/-- Whether `_get_block_of_sensor_readings` (source lines 167-193) finds any
row: the queried range is `[t - longest_window, t]`, inclusive at both ends
(SQL `BETWEEN`, and `.loc[window_start:window_end]` for CSV). -/
def blockHasData (cfg : Config) (log : SensorLog) (t : Int) : Bool :=
  log.entities.any (fun e =>
    (List.range (longestWindowMins cfg + 1)).any (fun (i : Nat) =>
      (log.readings e (t - (i : Int))).isSome))

/-- `run_analytics` for a minute-aligned tick `t` (source lines 335-355):
when the queried block is empty the method logs and returns `None` — no
records and no exception (`Except.ok none`); otherwise it runs the full
calculation. -/
def runAnalytics (cfg : Config) (log : SensorLog) (t : Int) :
    Except String (Option (List AnalyticsRecord)) :=
  if blockHasData cfg log t then (calculateAll cfg log t).map some
  else Except.ok none

/-- Python evaluates a `def`'s default argument once, when the enclosing
class body runs.  Source line 335 declares
`def run_analytics(self, time=pd.Timestamp.now(), commit=True)`, so the
default is the wall clock read at load time, a fixed value shared by every
later call that omits `time`.  `loadTimeNow` is that load-time clock value
and `timeArg` the (optional) explicit argument. -/
def runAnalyticsEffectiveTime (loadTimeNow : Int) (timeArg : Option Int) :
    Int :=
  timeArg.getD loadTimeNow

/-! ### Concrete inputs used by the witnesses and counterexamples -/

/-- A sensor row reading 10 ppm on every gas column. -/
def exRowA : Row := { gasVal := fun _ => 10, aux := fun _ => 0 }

/-- A sensor row reading 40 ppm on every gas column. -/
def exRowB : Row := { gasVal := fun _ => 40, aux := fun _ => 0 }

/-- A sensor row reading 99 ppm on every gas column. -/
def exRow99 : Row := { gasVal := fun _ => 99, aux := fun _ => 0 }

/-- A sensor row reading 50 ppm on every gas column. -/
def exRowFifty : Row := { gasVal := fun _ => 50, aux := fun _ => 0 }

/-- A sensor row reading 1000 ppm on every gas column. -/
def exRowHigh : Row := { gasVal := fun _ => 1000, aux := fun _ => 0 }

/-- A 10-minute window limiting carbon monoxide to 100 ppm. -/
def exWindow : Window :=
  { label := "10min", mins := 10, gas_limits := [("carbon_monoxide", 100)] }

/-- A valid single-window configuration: 10-minute window, CO limit
100 ppm, yellow warning at 80 percent, 3 rounding decimals. -/
def exCfg : Config :=
  { windows_and_limits := [exWindow]
  , supported_gases := ["carbon_monoxide"]
  , yellow_warning_percent := 80
  , safe_rounding_factor := 3 }

/-- A per-minute series with readings at minutes 0 (10 ppm row) and 4
(40 ppm row) and a 3-minute gap at minutes 1-3. -/
def exSeries : Int → Option Row :=
  fun m => if m = 0 then some exRowA else if m = 4 then some exRowB else none

/-- A log whose single firefighter reads 99 ppm on every minute 1..10. -/
def exLog99 : SensorLog :=
  { entities := ["ff1"]
  , readings := fun _ m =>
      if 1 ≤ m ∧ m ≤ 10 then some exRow99 else none }

/-- A log whose single firefighter has exactly one reading, 10 ppm at
minute 10. -/
def exLogSingle : SensorLog :=
  { entities := ["ff1"]
  , readings := fun _ m => if m = 10 then some exRowA else none }

/-- A log whose single firefighter reads 50 ppm on minutes 1..9 and
1000 ppm at minute 10. -/
def exLogB : SensorLog :=
  { entities := ["ff1"]
  , readings := fun _ m =>
      if m = 10 then some exRowHigh
      else if 1 ≤ m ∧ m ≤ 9 then some exRowFifty else none }

/-- A log whose single firefighter only has a reading at minute -5, far
before any window of a tick at minute 10. -/
def exLogFar : SensorLog :=
  { entities := ["ff1"]
  , readings := fun _ m => if m = -5 then some exRowA else none }

/-- A log with a known firefighter but no readings at all. -/
def exLogEmpty : SensorLog :=
  { entities := ["ff1"], readings := fun _ _ => none }

/-- An invalid configuration: the second window's `gas_limits` lacks the
supported gas `carbon_monoxide` that the first window defines. -/
def exBadCfg : Config :=
  { windows_and_limits :=
      [ { label := "10min", mins := 10, gas_limits := [("carbon_monoxide", 10)] }
      , { label := "1hr", mins := 60, gas_limits := [] } ]
  , supported_gases := ["carbon_monoxide"]
  , yellow_warning_percent := 80
  , safe_rounding_factor := 3 }

/-! ### Helper lemmas -/

theorem isEmpty_true_iff {α : Type} (l : List α) :
    l.isEmpty = true ↔ l = [] := by
  cases l <;> simp [List.isEmpty]

theorem mem_windowMinutes {t : Int} {k : Nat} {m : Int} :
    m ∈ windowMinutes t k ↔ t - (k : Int) + 1 ≤ m ∧ m ≤ t := by
  unfold windowMinutes
  rw [List.mem_map]
  constructor
  · rintro ⟨i, hi, rfl⟩
    rw [List.mem_range] at hi
    omega
  · rintro ⟨h1, h2⟩
    refine ⟨(t - m).toNat, ?_, ?_⟩
    · rw [List.mem_range]; omega
    · omega

theorem length_windowMinutes (t : Int) (k : Nat) :
    (windowMinutes t k).length = k := by
  rw [windowMinutes, List.length_map, List.length_range]

theorem le_foldl_max (l : List Window) (a : Nat) :
    a ≤ l.foldl (fun acc w => max acc w.mins) a := by
  induction l generalizing a with
  | nil => exact le_refl a
  | cons w ws ih => exact le_trans (le_max_left a w.mins) (ih (max a w.mins))

theorem mins_le_foldl {w : Window} :
    ∀ (l : List Window) (a : Nat), w ∈ l →
      w.mins ≤ l.foldl (fun acc w2 => max acc w2.mins) a := by
  intro l
  induction l with
  | nil => intro a h; cases h
  | cons w2 ws ih =>
    intro a h
    rcases List.mem_cons.mp h with h1 | h2
    · subst h1
      exact le_trans (le_max_right a w.mins) (le_foldl_max ws _)
    · exact ih _ h2

theorem mins_le_longest {cfg : Config} {w : Window}
    (h : w ∈ cfg.windows_and_limits) : w.mins ≤ longestWindowMins cfg :=
  mins_le_foldl cfg.windows_and_limits 0 h

theorem resampleAt_of_some {α : Type} {r : Int → Option α} {m : Int}
    {row : α} (h : r m = some row) (limit : Nat) :
    resampleAt r limit m = some row := by
  simp [resampleAt, h]

theorem resampleAt_eq_none {α : Type} {r : Int → Option α} {m : Int}
    (h : ∀ d : Int, 0 ≤ d → d ≤ 3 → r (m + d) = none) :
    resampleAt r 3 m = none := by
  have h0 : r m = none := by simpa using h 0 (by norm_num) (by norm_num)
  have h1 : r (m + 1) = none := h 1 (by norm_num) (by norm_num)
  have h2 : r (m + 2) = none := h 2 (by norm_num) (by norm_num)
  have h3 : r (m + 3) = none := h 3 (by norm_num) (by norm_num)
  simp [resampleAt, findNextWithin, h0, h1,
    show m + 1 + 1 = m + 2 from by ring, h2,
    show m + 2 + 1 = m + 3 from by ring, h3]

theorem roundHalfEven_nonneg {q : ℚ} (h : 0 ≤ q) : 0 ≤ roundHalfEven q := by
  have hf : (0 : ℤ) ≤ ⌊q⌋ := Int.floor_nonneg.mpr h
  unfold roundHalfEven
  split_ifs <;> omega

theorem roundHalfEven_intCast (n : ℤ) : roundHalfEven (n : ℚ) = n := by
  rw [roundHalfEven, Int.floor_intCast, sub_self, if_pos (by norm_num)]

theorem npRound_intCast (d : Nat) (n : ℤ) : npRound d (n : ℚ) = n := by
  have h10 : ((10 : ℚ) ^ d) ≠ 0 := by positivity
  rw [npRound,
    show ((n : ℚ)) * (10 : ℚ) ^ d = (((n * (10 : ℤ) ^ d : ℤ)) : ℚ) from by
      push_cast; ring,
    roundHalfEven_intCast]
  push_cast
  field_simp

/-- A reading stored at a minute of window `w`'s slice is kept unchanged in
the resampled grid (the minute lies in the longest window's slice, is its
own grid row, and resampling keeps stored values). -/
theorem cleanedSlot_of_reading {cfg : Config} {log : SensorLog} {t : Int}
    {w : Window} (hw : w ∈ cfg.windows_and_limits) {e : String} {m : Int}
    {row : Row} (hm : m ∈ windowMinutes t w.mins)
    (hr : log.readings e m = some row) :
    cleanedSlot cfg log t e m = some row := by
  have hL : w.mins ≤ longestWindowMins cfg := mins_le_longest hw
  have hmem := mem_windowMinutes.mp hm
  have hclean : cleanedReadings cfg log t e m = some row := by
    rw [cleanedReadings, readingsIn]
    rw [if_pos (by constructor <;> omega)]
    exact hr
  have hmemL : m ∈ windowMinutes t (longestWindowMins cfg) :=
    mem_windowMinutes.mpr (by omega)
  have hmr : m ∈ readingMinutes cfg log t e := by
    rw [readingMinutes, List.mem_filter]
    exact ⟨hmemL, by rw [hclean]; rfl⟩
  have hgrid : inGrid cfg log t e m = true := by
    rw [inGrid, Bool.and_eq_true]
    constructor <;>
      (rw [List.any_eq_true]; exact ⟨m, hmr, by simp⟩)
  rw [cleanedSlot, if_pos hgrid]
  exact resampleAt_of_some hclean 3

theorem mem_presentSlots_of_reading {cfg : Config} {log : SensorLog}
    {t : Int} {w : Window} (hw : w ∈ cfg.windows_and_limits) {e : String}
    {m : Int} {row : Row} (hm : m ∈ windowMinutes t w.mins)
    (hr : log.readings e m = some row) :
    row ∈ presentSlots cfg log t w e := by
  rw [presentSlots, List.mem_filterMap]
  exact ⟨m, hm, cleanedSlot_of_reading hw hm hr⟩

/-! ### Claim theorems -/

/-- C1 (code-bug evidence): with a single 10-minute window, CO limit
100 ppm and 99 ppm stored on each of the 10 minutes, the only gauge — and
hence the maximum gauge across all gas/window pairs — is exactly 99, and
the emitted status is YELLOW, not RED.  The right-closed `pd.cut` bin
`(yellow_warning_percent - 1, RED_RANGE_START]` at source lines 319-323
puts 99 into the yellow bin even though the constant `RED_RANGE_START = 99`
names 99 as the start of the red range. -/
theorem red_boundary_yields_yellow :
    entityGauges exCfg exLog99 10 "ff1" = [99] ∧
    (mkRecord exCfg exLog99 10 "ff1").status = some YELLOW ∧
    YELLOW ≠ RED := by
  have hps : presentSlots exCfg exLog99 10 exWindow "ff1" =
      [exRow99, exRow99, exRow99, exRow99, exRow99,
       exRow99, exRow99, exRow99, exRow99, exRow99] := rfl
  have hsum :
      windowSum exCfg exLog99 10 exWindow "ff1" "carbon_monoxide" = 990 := by
    rw [windowSum, hps]
    norm_num [exRow99]
  have htwa :
      windowTWA exCfg exLog99 10 exWindow "ff1" "carbon_monoxide" = 99 := by
    rw [windowTWA, hsum,
      show ((990 : ℚ) / ((exWindow.mins : Nat) : ℚ)) = ((99 : ℤ) : ℚ) from by
        norm_num [exWindow]]
    exact npRound_intCast _ 99
  have hlim : gasLimit exWindow "carbon_monoxide" = 100 := rfl
  have hg :
      windowGauge exCfg exLog99 10 exWindow "ff1" "carbon_monoxide" = 99 := by
    rw [windowGauge, htwa, hlim,
      show (99 : ℚ) * 100 / 100 = ((99 : ℤ) : ℚ) from by norm_num]
    exact roundHalfEven_intCast 99
  have hres : windowResultFor exCfg exLog99 10 exWindow "ff1" =
      some ⟨windowTWA exCfg exLog99 10 exWindow "ff1",
            windowGauge exCfg exLog99 10 exWindow "ff1"⟩ := by
    rw [windowResultFor, if_neg (by rw [hps]; decide)]
  have hgauges : entityGauges exCfg exLog99 10 "ff1" = [99] := by
    have hlist : entityGauges exCfg exLog99 10 "ff1" =
        (match windowResultFor exCfg exLog99 10 exWindow "ff1" with
         | none => []
         | some res => exCfg.supported_gases.map res.gauge) ++ [] := rfl
    rw [hlist, hres]
    rw [show exCfg.supported_gases = ["carbon_monoxide"] from rfl]
    simp [hg]
  have hstatus : (mkRecord exCfg exLog99 10 "ff1").status = some YELLOW := by
    show statusOf exCfg.yellow_warning_percent
        (entityGauges exCfg exLog99 10 "ff1") = some YELLOW
    rw [hgauges]
    decide
  exact ⟨hgauges, hstatus, by decide⟩

/-- C2 counterexample: in a series with a reading of 10 ppm at minute 0, a
reading of 40 ppm at minute 4 and a 3-minute gap in between, the resampled
value at minute 1 is 40 — the NEXT reading — and not the most recent prior
value 10 that the claim requires. -/
theorem backfill_not_forward_fill :
    (resampleAt exSeries 3 1).map (fun row => row.gasVal "carbon_monoxide")
        = some 40 ∧
    (exSeries 0).map (fun row => row.gasVal "carbon_monoxide") = some 10 ∧
    ¬ ((40 : ℚ) = (10 : ℚ)) :=
  ⟨rfl, rfl, by decide⟩

/-- C2 (amended): a stored reading is kept unchanged; a missing minute is
filled by carrying BACKWARD the next stored reading whenever that reading
lies at most 3 minutes ahead, and remains empty whenever the next 3
minutes hold no reading — so a value never propagates across a gap longer
than 3 minutes, and in a longer gap only the 3 minutes nearest the next
reading are filled. -/
theorem backfill_direction {α : Type} (r : Int → Option α) (m : Int) :
    (∀ row, r m = some row → resampleAt r 3 m = some row) ∧
    (r m = none → r (m + 1) = none → r (m + 2) = none → r (m + 3) = none →
      resampleAt r 3 m = none) ∧
    (r m = none → ∀ (row : α) (d : Int), d ∈ ([1, 2, 3] : List Int) →
      r (m + d) = some row →
      (∀ e : Int, 1 ≤ e → e < d → r (m + e) = none) →
      resampleAt r 3 m = some row) := by
  refine ⟨fun row h => resampleAt_of_some h 3, ?_, ?_⟩
  · intro h0 h1 h2 h3
    exact resampleAt_eq_none (fun d hd0 hd3 => by
      interval_cases d <;> simp_all)
  · intro h0 row d hd hrd hprior
    fin_cases hd
    · simp [resampleAt, findNextWithin, h0, hrd]
    · have h1 : r (m + 1) = none := hprior 1 (by norm_num) (by norm_num)
      simp [resampleAt, findNextWithin, h0, h1,
        show m + 1 + 1 = m + 2 from by ring, hrd]
    · have h1 : r (m + 1) = none := hprior 1 (by norm_num) (by norm_num)
      have h2 : r (m + 2) = none := hprior 2 (by norm_num) (by norm_num)
      simp [resampleAt, findNextWithin, h0, h1,
        show m + 1 + 1 = m + 2 from by ring, h2,
        show m + 2 + 1 = m + 3 from by ring, hrd]

/-- Witness for the amended C2 at a concrete input: in `exSeries` minute 1
is missing and the next reading (40 ppm at minute 4) is exactly 3 minutes
ahead, so the slot is filled with it. -/
theorem backfill_direction_witness :
    resampleAt exSeries 3 1 = some exRowB :=
  (backfill_direction exSeries 1).2.2 rfl exRowB 3 (by decide) rfl
    (fun e h1 h2 => by interval_cases e <;> rfl)

/-- C3: for every configured window, every firefighter with at least one
sample in the window's trailing slice and every gas, the reported TWA is
`round(sum of per-minute values / window.minutes, safe_rounding_factor)` —
the denominator is fixed at `window.minutes` regardless of how many minutes
had data. -/
theorem twa_fixed_denominator (cfg : Config) (log : SensorLog) (t : Int)
    (w : Window) (hw : w ∈ cfg.windows_and_limits) (e : String) (m : Int)
    (row : Row) (hm : m ∈ windowMinutes t w.mins)
    (hr : log.readings e m = some row) (g : String) :
    ∃ res, windowResultFor cfg log t w e = some res ∧
      res.twa g = npRound cfg.safe_rounding_factor.toNat
        (windowSum cfg log t w e g / (w.mins : ℚ)) := by
  have hne : ¬ (presentSlots cfg log t w e).isEmpty = true := by
    rw [isEmpty_true_iff]
    intro hcontra
    have hmem := mem_presentSlots_of_reading hw hm hr
    rw [hcontra] at hmem
    cases hmem
  refine ⟨⟨windowTWA cfg log t w e, windowGauge cfg log t w e⟩, ?_, rfl⟩
  rw [windowResultFor, if_neg hne]

/-- Witness for C3 at a concrete input where only 1 of the 10 window
minutes has data (a single 10 ppm reading): the fixed denominator is
exercised (the sum 10 is divided by 10, not by the 1 minute with data). -/
theorem twa_fixed_denominator_witness :
    ∃ res, windowResultFor exCfg exLogSingle 10 exWindow "ff1" = some res ∧
      res.twa "carbon_monoxide" = npRound exCfg.safe_rounding_factor.toNat
        (windowSum exCfg exLogSingle 10 exWindow "ff1" "carbon_monoxide"
          / (exWindow.mins : ℚ)) :=
  twa_fixed_denominator exCfg exLogSingle 10 exWindow
    (List.mem_singleton.mpr rfl) "ff1" 10 exRowA (by decide) rfl
    "carbon_monoxide"

/-- C4 (code-bug evidence): on a configuration whose second window lacks a
limit for the supported gas `carbon_monoxide`, `_validate_config` records
the key-set mismatch found by check 1 but then raises `KeyError` inside
check 3 (source line 78, `window[GAS_LIMITS_PROPERTY][gas]`), so the
method stops at that problem instead of running all five checks and
reporting one aggregated diagnostic. -/
theorem validate_config_keyerror :
    validateConfig exBadCfg = Except.error "KeyError" := rfl

/-- C5: for every window, firefighter with data, supported gas and
configured positive limit, the reported gauge equals
`round(TWA / limit * 100)` (round half to even, the platform default), with
no clipping; and a non-negative TWA yields a non-negative gauge. -/
theorem gauge_formula (cfg : Config) (log : SensorLog) (t : Int)
    (w : Window) (hw : w ∈ cfg.windows_and_limits) (e : String) (m : Int)
    (row : Row) (hm : m ∈ windowMinutes t w.mins)
    (hr : log.readings e m = some row) (g : String) (lim : ℚ)
    (hl : w.gas_limits.lookup g = some lim) (hpos : 0 < lim) :
    ∃ res, windowResultFor cfg log t w e = some res ∧
      res.gauge g = roundHalfEven (res.twa g / lim * 100) ∧
      (0 ≤ res.twa g → 0 ≤ res.gauge g) := by
  have hne : ¬ (presentSlots cfg log t w e).isEmpty = true := by
    rw [isEmpty_true_iff]
    intro hcontra
    have hmem := mem_presentSlots_of_reading hw hm hr
    rw [hcontra] at hmem
    cases hmem
  have hlim : gasLimit w g = lim := by
    rw [gasLimit, hl, Option.getD_some]
  refine ⟨⟨windowTWA cfg log t w e, windowGauge cfg log t w e⟩, ?_, ?_, ?_⟩
  · rw [windowResultFor, if_neg hne]
  · show roundHalfEven (windowTWA cfg log t w e g * 100 / gasLimit w g) = _
    rw [hlim, div_mul_eq_mul_div]
  · intro h
    apply roundHalfEven_nonneg
    rw [hlim]
    exact div_nonneg (mul_nonneg h (by norm_num)) (le_of_lt hpos)

/-- Witness for C5 at a concrete input (50 ppm for 9 minutes, 1000 ppm for
the last minute, limit 100 ppm), whose gauge evaluates to 145 — above 100
and unclipped. -/
theorem gauge_formula_witness :
    ∃ res, windowResultFor exCfg exLogB 10 exWindow "ff1" = some res ∧
      res.gauge "carbon_monoxide" =
        roundHalfEven (res.twa "carbon_monoxide" / 100 * 100) ∧
      (0 ≤ res.twa "carbon_monoxide" → 0 ≤ res.gauge "carbon_monoxide") :=
  gauge_formula exCfg exLogB 10 exWindow (List.mem_singleton.mpr rfl) "ff1"
    10 exRowHigh (by decide) rfl "carbon_monoxide" 100 (by decide)
    (by norm_num)

/-- C6: with the sensor log keyed by (firefighter, minute) — the source's
stated storage assumption — no firefighter ever contributes more rows to a
window's slice than the window has minutes, so the sanity `assert` at
source line 278 never fires and the tick is never aborted by it. -/
theorem window_sample_count_invariant (cfg : Config) (log : SensorLog)
    (t : Int) :
    (∀ w ∈ cfg.windows_and_limits, ∀ e : String,
        (presentSlots cfg log t w e).length ≤ w.mins) ∧
    assertFails cfg log t = false ∧
    calculateAll cfg log t ≠ Except.error "AssertionError" := by
  have hlen : ∀ (w : Window) (e : String),
      (presentSlots cfg log t w e).length ≤ w.mins := by
    intro w e
    calc (presentSlots cfg log t w e).length
        ≤ (windowMinutes t w.mins).length :=
          List.length_filterMap_le _ _
      _ = w.mins := length_windowMinutes t w.mins
  have hfa : assertFails cfg log t = false := by
    apply Bool.eq_false_iff.mpr
    intro hcontra
    obtain ⟨w, hw, h2⟩ := List.any_eq_true.mp hcontra
    obtain ⟨e, he, h3⟩ := List.any_eq_true.mp h2
    rw [decide_eq_true_eq] at h3
    exact absurd (hlen w e) (by omega)
  refine ⟨fun w _ e => hlen w e, hfa, ?_⟩
  intro hcontra
  rw [calculateAll, if_neg (by rw [hfa]; simp)] at hcontra
  split at hcontra
  · exact Except.noConfusion hcontra
  · have hmsg := Except.error.inj hcontra
    exact absurd hmsg (by decide)

/-- Witness for C6 at a concrete configuration and log. -/
theorem window_sample_count_invariant_witness :
    (presentSlots exCfg exLogSingle 10 exWindow "ff1").length
        ≤ exWindow.mins ∧
    calculateAll exCfg exLogSingle 10 ≠ Except.error "AssertionError" :=
  ⟨(window_sample_count_invariant exCfg exLogSingle 10).1 exWindow
      (List.mem_singleton.mpr rfl) "ff1",
   (window_sample_count_invariant exCfg exLogSingle 10).2.2⟩

/-- C7: a tick whose queried trailing block `[t - longest_window, t]`
contains no sensor data returns `Except.ok none` — the Python method logs
and returns `None`: no records are produced and no exception is raised, so
empty data is not a failure. -/
theorem empty_block_yields_no_records (cfg : Config) (log : SensorLog)
    (t : Int)
    (h : ∀ (e : String) (m : Int),
        t - (longestWindowMins cfg : Int) ≤ m → m ≤ t →
        log.readings e m = none) :
    runAnalytics cfg log t = Except.ok none := by
  have hb : blockHasData cfg log t = false := by
    apply Bool.eq_false_iff.mpr
    intro hcontra
    obtain ⟨e, he, h2⟩ := List.any_eq_true.mp hcontra
    obtain ⟨i, hi, h3⟩ := List.any_eq_true.mp h2
    rw [List.mem_range] at hi
    rw [h e (t - (i : Int)) (by omega) (by omega)] at h3
    simp at h3
  rw [runAnalytics, if_neg (by rw [hb]; simp)]

/-- Witness for C7: a log with no readings at all yields `ok none`. -/
theorem empty_block_yields_no_records_witness :
    runAnalytics exCfg exLogEmpty 10 = Except.ok none :=
  empty_block_yields_no_records exCfg exLogEmpty 10 (fun _ _ _ _ => rfl)

/-- C8: a firefighter with zero stored readings inside a window's trailing
slice contributes no result to that window at all — `windowResultFor` is
`none`, not a zero-filled row, so a missing result is distinguishable from
a computed TWA of 0 ppm. -/
theorem zero_samples_window_absent (cfg : Config) (log : SensorLog)
    (t : Int) (w : Window) (e : String)
    (h : ∀ m, m ∈ windowMinutes t w.mins → log.readings e m = none) :
    windowResultFor cfg log t w e = none := by
  have hslots : presentSlots cfg log t w e = [] := by
    rw [presentSlots, List.filterMap_eq_nil_iff]
    intro m hm
    rw [cleanedSlot]
    split
    · apply resampleAt_eq_none
      intro d hd0 hd3
      simp only [cleanedReadings, readingsIn]
      by_cases hin : t - (longestWindowMins cfg : Int) + 1 ≤ m + d ∧
          m + d ≤ t
      · rw [if_pos hin]
        apply h
        rw [mem_windowMinutes] at hm ⊢
        omega
      · rw [if_neg hin]
    · rfl
  rw [windowResultFor, if_pos (by rw [hslots]; rfl)]

/-- Witness for C8: a firefighter whose only reading is at minute -5 is
absent from the 10-minute window ending at tick minute 10. -/
theorem zero_samples_window_absent_witness :
    windowResultFor exCfg exLogFar 10 exWindow "ff1" = none :=
  zero_samples_window_absent exCfg exLogFar 10 exWindow "ff1"
    (fun m hm => by
      have h2 := mem_windowMinutes.mp hm
      simp only [exWindow] at h2
      show (if m = -5 then some exRowA else none) = none
      rw [if_neg (by omega)])

/-- C9 (code-bug evidence): the default of `run_analytics`'s `time`
parameter is evaluated once at class-body load, so a call omitting the
argument gets the load-time clock value (here 100), not the clock value at
the moment of the call (here 105); only an explicit argument yields the
call's own time. -/
theorem default_time_is_load_time :
    runAnalyticsEffectiveTime 100 none = 100 ∧
    runAnalyticsEffectiveTime 100 none ≠ 105 ∧
    runAnalyticsEffectiveTime 100 (some 105) = 105 :=
  ⟨rfl, by decide, rfl⟩

/-- C10: every record emitted by a successful tick is keyed to
`common_key = t - 1` (the minute before the tick) and carries as its
`latest` sensor fields the resampled grid slot at that minute — not the
tick's own minute. -/
theorem record_key_lags_tick (cfg : Config) (log : SensorLog) (t : Int)
    (recs : List AnalyticsRecord)
    (h : calculateAll cfg log t = Except.ok recs) (rec : AnalyticsRecord)
    (hr : rec ∈ recs) :
    rec.timestamp_mins = t - 1 ∧
    rec.latest = cleanedSlot cfg log t rec.firefighter (t - 1) := by
  rw [calculateAll] at h
  split at h
  · exact Except.noConfusion h
  · split at h
    · injection h with h2
      subst h2
      obtain ⟨e, he, rfl⟩ := List.mem_map.mp hr
      exact ⟨rfl, rfl⟩
    · exact Except.noConfusion h

/-- Witness for C10 at a concrete tick that emits one record. -/
theorem record_key_lags_tick_witness :
    (mkRecord exCfg exLogSingle 10 "ff1").timestamp_mins = 10 - 1 ∧
    (mkRecord exCfg exLogSingle 10 "ff1").latest =
      cleanedSlot exCfg exLogSingle 10
        (mkRecord exCfg exLogSingle 10 "ff1").firefighter (10 - 1) :=
  record_key_lags_tick exCfg exLogSingle 10
    [mkRecord exCfg exLogSingle 10 "ff1"] (by rfl)
    (mkRecord exCfg exLogSingle 10 "ff1") (List.mem_singleton.mpr rfl)

end Prometeo
